import Mathlib

/-!
Shallow embedding of `reddit_post_notifier/__main__.py`.

The program is a polling loop: for each configured (subreddit, search_query)
pair it fetches a Reddit search page, parses it into post records, sends a
Pushbullet notification for each post whose id is not yet in the in-memory
`notified_ids` set, adds the id, and persists the set once per pass.

External collaborators (HTTP transport, BeautifulSoup's HTML parsing,
`datetime.fromisoformat`, `humanize.naturaltime`, timezone formatting and the
Pushbullet delivery channel) are modelled at their interface boundary:
 - a fetched page is an `Option Element` (a queryable document tree, `none`
   when `download_reddit_search` swallowed a network error and returned None);
 - ISO-8601 timestamp parsing is a parameter `fromIso : String → Option Int`
   (`none` models the `ValueError` branch of `datetime.fromisoformat`);
 - relative-time and timezone formatting are opaque string-producing
   parameters;
 - delivery success of the HTTP POST to Pushbullet is a Boolean-valued
   parameter (`requests.post` + `raise_for_status`, whose `RequestException`
   the source catches and logs).

Python exceptions that the embedded code can raise are reified in `PyError`:
`TypeError` from `datetime.now(pytz.utc) - None` when a post's time is None,
and the `ValueError` raised by `send_pushbullet_notification` when
`PUSHBULLET_API_KEY` is unset.  Because Python mutates `notified_ids` in
place, a function that stops with an error still returns the set as mutated
up to that point, mirroring what the caller observes after catching.
-/

namespace RedditPostNotifier

/-- Timestamps (a UTC datetime) are modelled as an integer epoch value;
`datetime` subtraction becomes integer subtraction. -/
abbrev DateTime := Int

/-- A node of the external document tree produced by BeautifulSoup:
tag name, CSS classes, attributes, text content, children. -/
inductive Element : Type where
  | node : String → List String → List (String × String) → String → List Element → Element

def Element.tag : Element → String
  | .node t _ _ _ _ => t

def Element.classes : Element → List String
  | .node _ c _ _ _ => c

def Element.attrs : Element → List (String × String)
  | .node _ _ a _ _ => a

def Element.text : Element → String
  | .node _ _ _ tx _ => tx

def Element.children : Element → List Element
  | .node _ _ _ _ ch => ch

mutual

/-- All descendant elements of a node, in document order (BeautifulSoup's
search space for `find` / `find_all` on that node). -/
def Element.descendants : Element → List Element
  | .node _ _ _ _ cs => Element.descendantsList cs

def Element.descendantsList : List Element → List Element
  | [] => []
  | c :: cs => c :: (Element.descendants c ++ Element.descendantsList cs)

end

/-- `element.get(key)` / `element["key"]` / `has_attr`: attribute lookup. -/
def Element.getAttr (e : Element) (k : String) : Option String :=
  (e.attrs.find? (fun kv => kv.fst == k)).map (fun kv => kv.snd)

/-- Does this element match `find(tag, class_=cls)`? -/
def Element.matchesTagClass (e : Element) (tag cls : String) : Bool :=
  e.tag == tag && e.classes.contains cls

/-- `soup.find_all(tag, class_=cls)`: every descendant with the tag and class,
in document order. -/
def Element.findAll (e : Element) (tag cls : String) : List Element :=
  e.descendants.filter (fun d => d.matchesTagClass tag cls)

/-- `node.find(tag, class_=cls)`: first matching descendant, if any. -/
def Element.findTagClass (e : Element) (tag cls : String) : Option Element :=
  (e.findAll tag cls).head?

/-- `node.find(tag)` with no class filter (used for `result.find("time")`). -/
def Element.findTag (e : Element) (tag : String) : Option Element :=
  (e.descendants.filter (fun d => d.tag == tag)).head?

/-- Python `str.strip()`: drop whitespace from both ends. -/
def pyStrip (s : String) : String :=
  (((s.data.dropWhile Char.isWhitespace).reverse.dropWhile Char.isWhitespace).reverse).asString

/-- Python `str.split(sep)` for a one-character separator: split at every
occurrence; always at least one (possibly empty) piece. -/
def splitOnChar (sep : Char) : List Char → List (List Char)
  | [] => [[]]
  | c :: cs =>
    match splitOnChar sep cs with
    | [] => [[]]
    | h :: t => if c = sep then [] :: h :: t else (c :: h) :: t

/-- Python `s.split(sep)[-1]` for a one-character separator. -/
def pySplitLast (sep : Char) (s : String) : String :=
  ((splitOnChar sep s.data).getLastD []).asString

/-- Python `s.startswith(p)`. -/
def pyStartsWith (s p : String) : Bool :=
  p.data.isPrefixOf s.data

/-- One parsed post record: the dict built per search result, with keys
`id`, `title`, `author`, `link`, `time`. -/
structure Post where
  id : String
  title : String
  author : String
  link : String
  time : Option DateTime
deriving DecidableEq, Repr

/-- The value of `post_data["link"]` right before the relative-link rewrite:
the title anchor's `href` if the anchor exists and has one, else `""`. -/
def raw_link (result : Element) : String :=
  match result.findTagClass "a" "search-title" with
  | some t => (t.getAttr "href").getD ""
  | none => ""

/-- The body of the `for result in search_results` loop of
`parse_reddit_search_results`: extract one `Post` from one
`div.search-result-link` node.  `fromIso` stands for
`datetime.fromisoformat` (+ `.replace(tzinfo=pytz.UTC)`); `none` is its
`ValueError` branch.  Total: a malformed node degrades field by field. -/
def extract_post (fromIso : String → Option DateTime) (result : Element) : Post :=
  let id := pySplitLast '_' ((result.getAttr "data-fullname").getD "")
  let title_element := result.findTagClass "a" "search-title"
  let title :=
    match title_element with
    | some t => pyStrip t.text
    | none => "No title found"
  let author :=
    match result.findTagClass "a" "author" with
    | some a => a.text
    | none => "Unknown"
  let link0 := raw_link result
  let link :=
    if pyStartsWith link0 "/" then "https://www.reddit.com" ++ link0 else link0
  let time :=
    match result.findTag "time" with
    | some te =>
      match te.getAttr "datetime" with
      | some ts => fromIso ts
      | none => none
    | none => none
  { id := id, title := title, author := author, link := link, time := time }

/-- `parse_reddit_search_results(soup)`: one record per
`div.search-result-link` node, in document order. -/
def parse_reddit_search_results (fromIso : String → Option DateTime)
    (soup : Element) : List Post :=
  (soup.findAll "div" "search-result-link").map (extract_post fromIso)

/-- `fetch_and_parse_reddit_search`: `fetched` is the result of
`download_reddit_search` (`none` = network error, logged and swallowed). -/
def fetch_and_parse_reddit_search (fromIso : String → Option DateTime)
    (fetched : Option Element) : List Post :=
  match fetched with
  | some soup => parse_reddit_search_results fromIso soup
  | none => []

/-- Reified Python exceptions reachable in the embedded fragment. -/
inductive PyError : Type where
  | typeError
  | valueError : String → PyError
deriving DecidableEq, Repr

/-- `send_pushbullet_notification(title, body)`.  `apiKey` is
`os.environ.get("PUSHBULLET_API_KEY")`; `deliverOk` is whether the HTTP POST
succeeded (its failure is caught and only logged, hence `.ok` either way;
the returned string is the line printed). -/
def send_pushbullet_notification (apiKey : Option String) (deliverOk : Bool)
    (title body : String) : Except PyError String :=
  match apiKey with
  | none => .error (.valueError "PUSHBULLET_API_KEY environment variable is not set")
  | some _ =>
    if deliverOk then .ok "Notification sent successfully!"
    else .ok "Failed to send notification"

/-- The ambient collaborators of one run: environment, clock, formatting
libraries, ISO parsing and the delivery channel's outcome. -/
structure Ctx where
  apiKey : Option String
  now : DateTime
  naturaltime : Int → String
  isoformatET : DateTime → String
  deliver : String → String → Bool
  fromIso : String → Option DateTime

/-- One notification that reached `send_pushbullet_notification`:
the id of the post it was for, and the title/body built for it. -/
structure SentNote where
  id : String
  title : String
  body : String
deriving DecidableEq, Repr

/-- Observable outcome of the `for post in posts` loop of
`send_reddit_notifications`: the `notified_ids` set as mutated (in place) when
the loop finished or the error escaped, the final `notified_cnt`, the
notifications attempted, and the error, if one was raised. -/
structure LoopOut where
  notified : Finset String
  cnt : Nat
  sent : List SentNote
  err : Option PyError
deriving DecidableEq

/-- The notification title built for a new post:
`f"New post in r/{subreddit} by {post['author']} {humanize.naturaltime(time_diff)}"`
with `time_diff = datetime.now(pytz.utc) - post["time"]`. -/
def notification_title (ctx : Ctx) (subreddit : String) (p : Post) (t : DateTime) : String :=
  "New post in r/" ++ subreddit ++ " by " ++ p.author ++ " " ++ ctx.naturaltime (ctx.now - t)

/-- The four-line notification body (Title / Author / Time in
America/New_York ISO format / Link). -/
def notification_body (ctx : Ctx) (p : Post) (t : DateTime) : String :=
  "Title: " ++ p.title ++ "\n" ++ "Author: " ++ p.author ++ "\n"
    ++ "Time: " ++ ctx.isoformatET t ++ "\n" ++ "Link: " ++ p.link

/-- The `for post in posts` loop of `send_reddit_notifications`.
For a new post the source first computes `datetime.now(pytz.utc) -
post["time"]` (a `TypeError` when the time is `None`), then builds title and
body, then calls `send_pushbullet_notification` (a `ValueError` when the API
key is unset), and only then increments the counter and adds the id. -/
def notify_posts (ctx : Ctx) (subreddit : String) :
    List Post → Finset String → LoopOut
  | [], s => ⟨s, 0, [], none⟩
  | p :: rest, s =>
    if p.id ∈ s then
      notify_posts ctx subreddit rest s
    else
      match p.time with
      | none => ⟨s, 0, [], some .typeError⟩
      | some t =>
        let title := notification_title ctx subreddit p t
        let body := notification_body ctx p t
        match send_pushbullet_notification ctx.apiKey (ctx.deliver title body) title body with
        | .error e => ⟨s, 0, [], some e⟩
        | .ok _ =>
          let r := notify_posts ctx subreddit rest (insert p.id s)
          ⟨r.notified, r.cnt + 1, ⟨p.id, title, body⟩ :: r.sent, r.err⟩

/-- Result of one `send_reddit_notifications` call: the loop outcome plus the
total number of fetched posts (the `Total posts` figure of the summary line,
printed only when no error was raised). -/
structure CycleResult where
  total : Nat
  notified : Finset String
  cnt : Nat
  sent : List SentNote
  err : Option PyError
deriving DecidableEq

/-- `send_reddit_notifications(subreddit, search_query, notified_ids)`, with
the fetched page injected (`none` = download failure). -/
def send_reddit_notifications (ctx : Ctx) (subreddit search_query : String)
    (fetched : Option Element) (notified_ids : Finset String) : CycleResult :=
  let posts := fetch_and_parse_reddit_search ctx.fromIso fetched
  let r := notify_posts ctx subreddit posts notified_ids
  ⟨posts.length, r.notified, r.cnt, r.sent, r.err⟩

/-- One `{"subreddit": ..., "search_query": ...}` entry of `searches.yml`. -/
structure Query where
  subreddit : String
  search_query : String

/-- Outcome of the `try` block of one pass of `main`'s `while True` loop:
the `notified_ids` set after the pass, how many queries completed, and the
exception the `except Exception` clause caught, if any. -/
structure PassOut where
  notified : Finset String
  completed : Nat
  err : Option PyError
deriving DecidableEq

/-- The `for search_config in cfg` loop inside `main`'s `try`: queries are
processed sequentially, and the first exception escapes the loop (skipping
every remaining query) to the pass-level `except` handler. -/
def run_pass_queries (ctx : Ctx) (fetch : Query → Option Element) :
    List Query → Finset String → PassOut
  | [], s => ⟨s, 0, none⟩
  | q :: rest, s =>
    let r := send_reddit_notifications ctx q.subreddit q.search_query (fetch q) s
    match r.err with
    | some e => ⟨r.notified, 0, some e⟩
    | none =>
      let p := run_pass_queries ctx fetch rest r.notified
      ⟨p.notified, p.completed + 1, p.err⟩

/-- `json.dump(list(notified_ids), f)`: the list serialized after a pass.
CPython's `list(set)` order is unspecified; the model picks the sorted
enumeration as its deterministic representative. -/
def save_notified_ids (s : Finset String) : List String :=
  s.sort (· ≤ ·)

/-- `set(json.load(f))` with the `FileNotFoundError → set()` fallback:
`none` models an absent `notified_ids.json`. -/
def load_notified_ids : Option (List String) → Finset String
  | none => ∅
  | some l => l.toFinset

/-- The in-memory set plus the last durable copy of `notified_ids.json`
(`none` = no file written yet). -/
structure LoopState where
  notifiedIds : Finset String
  savedIds : Option (List String)
deriving DecidableEq

/-- One full iteration of `main`'s `while True` loop: run the pass over all
queries under `try`; on success write `notified_ids.json`; on an exception
print it and keep going (the file write inside the `try` is skipped).  The
function always returns a state for the next pass — `except Exception`
catches everything, so no pass aborts the process. -/
def main_loop_iter (ctx : Ctx) (fetch : Query → Option Element)
    (cfg : List Query) (st : LoopState) : LoopState :=
  let p := run_pass_queries ctx fetch cfg st.notifiedIds
  match p.err with
  | some _ => ⟨p.notified, st.savedIds⟩
  | none => ⟨p.notified, some (save_notified_ids p.notified)⟩

/-! ### Concrete fixtures

Small synthetic documents and a concrete collaborator context used to
evaluate the embedded code on closed inputs. -/

/-- ISO parser fixture: recognises one timestamp string. -/
def fromIso0 : String → Option DateTime :=
  fun s => if s = "2024-06-01T00:00:00" then some 100 else none

/-- Concrete collaborator context with the API key present. -/
def ctx0 : Ctx :=
  { apiKey := some "k"
    now := 400
    naturaltime := fun _ => "5 minutes ago"
    isoformatET := fun _ => "2024-05-31T19:00:00-05:00"
    deliver := fun _ _ => true
    fromIso := fromIso0 }

/-- The same context with `PUSHBULLET_API_KEY` absent from the environment. -/
def ctxNoKey : Ctx :=
  { ctx0 with apiKey := none }

/-- A search-result node with the given fullname, title, href, author and
timestamp text. -/
def mkResult (fullname title href author dt : String) : Element :=
  .node "div" ["search-result-link"] [("data-fullname", fullname)] ""
    [.node "a" ["search-title"] [("href", href)] title [],
     .node "a" ["author"] [] author [],
     .node "time" [] [("datetime", dt)] "" []]

/-- Document with two result nodes, ids "abc" and "def", both well-formed. -/
def docAbcDef : Element :=
  .node "[document]" [] [] ""
    [mkResult "t3_abc" " Post Abc " "/r/test/comments/abc" "alice" "2024-06-01T00:00:00",
     mkResult "t3_def" " Post Def " "/r/test/comments/def" "bob" "2024-06-01T00:00:00"]

/-- Document with one result node, id "aaa", that has no `<time>` element:
its parsed record has `time = none`. -/
def docNoTime : Element :=
  .node "[document]" [] [] ""
    [.node "div" ["search-result-link"] [("data-fullname", "t3_aaa")] ""
      [.node "a" ["search-title"] [("href", "/r/test/comments/aaa")] "Post Aaa" [],
       .node "a" ["author"] [] "carol" []]]

/-- Document with one well-formed result node, id "bbb". -/
def docBbb : Element :=
  .node "[document]" [] [] ""
    [mkResult "t3_bbb" "Post Bbb" "/r/test/comments/bbb" "dave" "2024-06-01T00:00:00"]

/-- A result node with no title anchor, no author anchor, no attributes:
every field of its record degrades to its fallback. -/
def bareResult : Element :=
  .node "div" ["search-result-link"] [] "" []

/-- An empty document: no search-result nodes at all. -/
def docEmpty : Element :=
  .node "[document]" [] [] "" []

/-- First configured query of the two-query pass fixture. -/
def q1 : Query := ⟨"test1", "x"⟩

/-- Second configured query of the two-query pass fixture. -/
def q2 : Query := ⟨"test2", "x"⟩

/-- Fetch fixture for the two-query pass: the first query's page has a post
with a missing timestamp, the second a well-formed new post "bbb". -/
def fetch2 : Query → Option Element :=
  fun q => if q.subreddit = "test1" then some docNoTime else some docBbb

/-- A single-query configuration whose page always holds post "bbb". -/
def qB : Query := ⟨"test", "x"⟩

/-- Fetch fixture returning the "bbb" document for every query. -/
def fetchB : Query → Option Element :=
  fun _ => some docBbb

/-! ### Lemmas about the notification loop -/

/-- Case analysis of one iteration of the `for post in posts` loop. -/
theorem notify_posts_cons (ctx : Ctx) (subreddit : String) (p : Post)
    (rest : List Post) (s : Finset String) :
    notify_posts ctx subreddit (p :: rest) s =
      if p.id ∈ s then notify_posts ctx subreddit rest s
      else
        match p.time with
        | none => ⟨s, 0, [], some .typeError⟩
        | some t =>
          match ctx.apiKey with
          | none => ⟨s, 0, [], some (.valueError "PUSHBULLET_API_KEY environment variable is not set")⟩
          | some _ =>
            let r := notify_posts ctx subreddit rest (insert p.id s)
            ⟨r.notified, r.cnt + 1,
              ⟨p.id, notification_title ctx subreddit p t, notification_body ctx p t⟩ :: r.sent,
              r.err⟩ := by
  by_cases h : p.id ∈ s
  · simp [notify_posts, h]
  · rw [notify_posts, if_neg h, if_neg h]
    cases ht : p.time with
    | none => rfl
    | some t =>
      cases hk : ctx.apiKey with
      | none => simp [send_pushbullet_notification, hk]
      | some k =>
        cases hd : ctx.deliver (notification_title ctx subreddit p t) (notification_body ctx p t) with
        | false => simp [send_pushbullet_notification, hk, hd]
        | true => simp [send_pushbullet_notification, hk, hd]

/-- The loop only ever adds ids to `notified_ids`: the input set survives. -/
theorem notify_posts_subset (ctx : Ctx) (subreddit : String) (posts : List Post) :
    ∀ s : Finset String, s ⊆ (notify_posts ctx subreddit posts s).notified := by
  induction posts with
  | nil => intro s; simp [notify_posts]
  | cons p rest ih =>
    intro s
    rw [notify_posts_cons]
    by_cases h : p.id ∈ s
    · rw [if_pos h]; exact ih s
    · rw [if_neg h]
      cases ht : p.time with
      | none => simp
      | some t =>
        cases hk : ctx.apiKey with
        | none => simp
        | some k =>
          simp only []
          exact (Finset.subset_insert _ _).trans (ih (insert p.id s))

/-- When the loop finishes without an exception, every fetched post's id is
in the final set. -/
theorem notify_posts_mem_of_ok (ctx : Ctx) (subreddit : String) (posts : List Post) :
    ∀ s : Finset String, (notify_posts ctx subreddit posts s).err = none →
      ∀ p ∈ posts, p.id ∈ (notify_posts ctx subreddit posts s).notified := by
  induction posts with
  | nil => intro s _ p hp; cases hp
  | cons q rest ih =>
    intro s herr p hp
    rw [notify_posts_cons] at herr ⊢
    by_cases h : q.id ∈ s
    · rw [if_pos h] at herr ⊢
      rcases List.mem_cons.mp hp with rfl | hp'
      · exact notify_posts_subset ctx subreddit rest s h
      · exact ih s herr p hp'
    · rw [if_neg h] at herr ⊢
      cases ht : q.time with
      | none => rw [ht] at herr; exact Option.noConfusion herr
      | some t =>
        rw [ht] at herr
        cases hk : ctx.apiKey with
        | none => rw [hk] at herr; exact Option.noConfusion herr
        | some k =>
          rw [hk] at herr
          rcases List.mem_cons.mp hp with rfl | hp'
          · exact notify_posts_subset ctx subreddit rest (insert p.id s)
              (Finset.mem_insert_self p.id s)
          · exact ih (insert q.id s) herr p hp'

/-- A loop over posts whose ids are all already notified is a no-op. -/
theorem notify_posts_all_mem (ctx : Ctx) (subreddit : String) (posts : List Post) :
    ∀ s : Finset String, (∀ p ∈ posts, p.id ∈ s) →
      notify_posts ctx subreddit posts s = ⟨s, 0, [], none⟩ := by
  induction posts with
  | nil => intro s _; rfl
  | cons q rest ih =>
    intro s h
    rw [notify_posts_cons, if_pos (h q (List.mem_cons_self q rest))]
    exact ih s (fun p hp => h p (List.mem_cons_of_mem q hp))

/-- The final set is the input set plus exactly the ids of the posts for
which a notification was attempted. -/
theorem notify_posts_notified_eq (ctx : Ctx) (subreddit : String) (posts : List Post) :
    ∀ s : Finset String,
      (notify_posts ctx subreddit posts s).notified
        = s ∪ ((notify_posts ctx subreddit posts s).sent.map SentNote.id).toFinset := by
  induction posts with
  | nil => intro s; simp [notify_posts]
  | cons q rest ih =>
    intro s
    rw [notify_posts_cons]
    by_cases h : q.id ∈ s
    · rw [if_pos h]; exact ih s
    · rw [if_neg h]
      cases ht : q.time with
      | none => simp
      | some t =>
        cases hk : ctx.apiKey with
        | none => simp
        | some k =>
          simp only [List.map_cons, List.toFinset_cons]
          rw [ih (insert q.id s), Finset.insert_union, Finset.union_insert]

/-- The loop's outcome does not depend on whether deliveries succeed. -/
theorem notify_posts_deliver_irrel (ctx : Ctx) (f g : String → String → Bool)
    (subreddit : String) (posts : List Post) :
    ∀ s : Finset String,
      notify_posts { ctx with deliver := f } subreddit posts s
        = notify_posts { ctx with deliver := g } subreddit posts s := by
  induction posts with
  | nil => intro s; rfl
  | cons q rest ih =>
    intro s
    rw [notify_posts_cons, notify_posts_cons]
    by_cases h : q.id ∈ s
    · rw [if_pos h, if_pos h]; exact ih s
    · rw [if_neg h, if_neg h]
      cases ht : q.time with
      | none => rfl
      | some t =>
        cases hk : ctx.apiKey with
        | none => simp [hk]
        | some k =>
          rw [hk] at ih
          simp [notification_title, notification_body, ih (insert q.id s)]

/-! ### Claims -/

/-- C1: the notifier does NOT survive a null timestamp.  Evaluating
`send_reddit_notifications` on a document whose single (new) post has no
`<time>` element: `datetime.now(pytz.utc) - post["time"]` raises `TypeError`
before any title or body is built; no fallback phrase exists in the code. -/
theorem notifier_null_timestamp_typeError :
    send_reddit_notifications ctx0 "test" "q" (some docNoTime) ∅
      = ⟨1, ∅, 0, [], some .typeError⟩ := by decide

/-- C2 counterexample: a concrete pass over two configured queries in which
the first query's cycle raises (`TypeError` on a timestamp-less new post) and
the second query — which on its own would notify post "bbb" — is not
processed at all: the pass ends with zero completed queries and a final set
that does not contain "bbb". -/
theorem pass_not_isolated_counterexample :
    run_pass_queries ctx0 fetch2 [q1, q2] ∅ = ⟨∅, 0, some .typeError⟩
    ∧ (send_reddit_notifications ctx0 q2.subreddit q2.search_query (fetch2 q2) ∅).cnt = 1
    ∧ (send_reddit_notifications ctx0 q2.subreddit q2.search_query (fetch2 q2) ∅).notified
        = {"bbb"} := by decide

/-- C2 amended: an exception raised while processing one (subreddit, query)
pair aborts every remaining pair of the same pass and skips that pass's
persistence write; the pass-level handler catches it, so only the current
pass (not the process) is lost. -/
theorem pass_aborts_on_query_error (ctx : Ctx) (fetch : Query → Option Element)
    (q : Query) (rest : List Query) (s : Finset String)
    (saved : Option (List String)) (e : PyError)
    (h : (send_reddit_notifications ctx q.subreddit q.search_query (fetch q) s).err = some e) :
    run_pass_queries ctx fetch (q :: rest) s
      = ⟨(send_reddit_notifications ctx q.subreddit q.search_query (fetch q) s).notified, 0, some e⟩
    ∧ main_loop_iter ctx fetch (q :: rest) ⟨s, saved⟩
      = ⟨(send_reddit_notifications ctx q.subreddit q.search_query (fetch q) s).notified, saved⟩ := by
  have h1 : run_pass_queries ctx fetch (q :: rest) s
      = ⟨(send_reddit_notifications ctx q.subreddit q.search_query (fetch q) s).notified,
         0, some e⟩ := by
    simp [run_pass_queries, h]
  exact ⟨h1, by simp [main_loop_iter, h1]⟩

/-- C2 amended, witness: the concrete two-query pass of the counterexample,
run through the amended statement. -/
theorem pass_aborts_on_query_error_witness :
    (send_reddit_notifications ctx0 q1.subreddit q1.search_query (fetch2 q1) ∅).err
      = some .typeError
    ∧ run_pass_queries ctx0 fetch2 [q1, q2] ∅
      = ⟨(send_reddit_notifications ctx0 q1.subreddit q1.search_query (fetch2 q1) ∅).notified,
         0, some .typeError⟩
    ∧ main_loop_iter ctx0 fetch2 [q1, q2] ⟨∅, none⟩
      = ⟨(send_reddit_notifications ctx0 q1.subreddit q1.search_query (fetch2 q1) ∅).notified,
         none⟩ :=
  ⟨by decide,
   (pass_aborts_on_query_error ctx0 fetch2 q1 [q2] ∅ none .typeError (by decide)).1,
   (pass_aborts_on_query_error ctx0 fetch2 q1 [q2] ∅ none .typeError (by decide)).2⟩

/-- C3: a cycle that completed without an exception is idempotent — running
it again over the same fetched posts, starting from the set it produced,
notifies nothing and returns the set unchanged with new-posts count 0. -/
theorem second_cycle_sends_nothing (ctx : Ctx) (subreddit search_query : String)
    (fetched : Option Element) (s : Finset String)
    (h : (send_reddit_notifications ctx subreddit search_query fetched s).err = none) :
    send_reddit_notifications ctx subreddit search_query fetched
        ((send_reddit_notifications ctx subreddit search_query fetched s).notified)
      = ⟨(send_reddit_notifications ctx subreddit search_query fetched s).total,
         (send_reddit_notifications ctx subreddit search_query fetched s).notified,
         0, [], none⟩ := by
  have hmem : ∀ p ∈ fetch_and_parse_reddit_search ctx.fromIso fetched,
      p.id ∈ (notify_posts ctx subreddit
        (fetch_and_parse_reddit_search ctx.fromIso fetched) s).notified :=
    notify_posts_mem_of_ok ctx subreddit (fetch_and_parse_reddit_search ctx.fromIso fetched) s h
  have hrun := notify_posts_all_mem ctx subreddit
    (fetch_and_parse_reddit_search ctx.fromIso fetched)
    ((notify_posts ctx subreddit (fetch_and_parse_reddit_search ctx.fromIso fetched) s).notified)
    hmem
  simp [send_reddit_notifications, hrun]

/-- C3 witness: the two-post document, starting from the empty set. -/
theorem second_cycle_sends_nothing_witness :
    (send_reddit_notifications ctx0 "test" "q" (some docAbcDef) ∅).err = none
    ∧ send_reddit_notifications ctx0 "test" "q" (some docAbcDef)
        ((send_reddit_notifications ctx0 "test" "q" (some docAbcDef) ∅).notified)
      = ⟨(send_reddit_notifications ctx0 "test" "q" (some docAbcDef) ∅).total,
         (send_reddit_notifications ctx0 "test" "q" (some docAbcDef) ∅).notified,
         0, [], none⟩ :=
  ⟨by decide, second_cycle_sends_nothing ctx0 "test" "q" (some docAbcDef) ∅ (by decide)⟩

/-- C4: the end-to-end scenario: a document with result nodes "abc" and
"def" and input set {"abc"} yields exactly one notification (for "def"),
final set {"abc", "def"}, total 2, new 1, and no exception. -/
theorem scenario_two_posts_one_new :
    (send_reddit_notifications ctx0 "test" "q" (some docAbcDef) {"abc"}).total = 2
    ∧ (send_reddit_notifications ctx0 "test" "q" (some docAbcDef) {"abc"}).cnt = 1
    ∧ (send_reddit_notifications ctx0 "test" "q" (some docAbcDef) {"abc"}).sent.map SentNote.id
        = ["def"]
    ∧ (send_reddit_notifications ctx0 "test" "q" (some docAbcDef) {"abc"}).notified
        = {"abc", "def"}
    ∧ (send_reddit_notifications ctx0 "test" "q" (some docAbcDef) {"abc"}).err = none := by
  decide

/-- C5: the cycle's outcome — in particular which ids end up in the
notified set — is identical whatever the delivery channel reports, and every
post a notification was attempted for has its id in the final set. -/
theorem delivery_outcome_irrelevant_to_dedup (ctx : Ctx) (f g : String → String → Bool)
    (subreddit search_query : String) (fetched : Option Element) (s : Finset String) :
    send_reddit_notifications { ctx with deliver := f } subreddit search_query fetched s
      = send_reddit_notifications { ctx with deliver := g } subreddit search_query fetched s
    ∧ ((send_reddit_notifications { ctx with deliver := f } subreddit search_query fetched
          s).sent.map SentNote.id).toFinset
      ⊆ (send_reddit_notifications { ctx with deliver := f } subreddit search_query fetched
          s).notified := by
  constructor
  · simp only [send_reddit_notifications]
    rw [notify_posts_deliver_irrel ctx f g subreddit
      (fetch_and_parse_reddit_search ctx.fromIso fetched) s]
  · have h2 := notify_posts_notified_eq { ctx with deliver := f } subreddit
      (fetch_and_parse_reddit_search ctx.fromIso fetched) s
    simp only [send_reddit_notifications]
    rw [h2]
    exact Finset.subset_union_right

/-- C6: extraction is total and per-field degrading: it returns exactly one
record per `div.search-result-link` node (an empty list for a document with
none), a missing title anchor yields title "No title found" and link "", a
missing author anchor yields author "Unknown", a missing `data-fullname`
yields id "", a missing or unparsable timestamp yields `time = none`, and a
link beginning with "/" is rewritten onto the fixed https origin. -/
theorem extraction_total_with_fallbacks (fromIso : String → Option DateTime) (soup : Element) :
    parse_reddit_search_results fromIso soup
      = (soup.findAll "div" "search-result-link").map (extract_post fromIso)
    ∧ ∀ result : Element,
        (result.findTagClass "a" "search-title" = none →
          (extract_post fromIso result).title = "No title found"
          ∧ (extract_post fromIso result).link = "")
        ∧ (result.findTagClass "a" "author" = none →
          (extract_post fromIso result).author = "Unknown")
        ∧ (result.getAttr "data-fullname" = none →
          (extract_post fromIso result).id = "")
        ∧ (pyStartsWith (raw_link result) "/" = true →
          (extract_post fromIso result).link = "https://www.reddit.com" ++ raw_link result)
        ∧ (pyStartsWith (raw_link result) "/" = false →
          (extract_post fromIso result).link = raw_link result)
        ∧ (result.findTag "time" = none →
          (extract_post fromIso result).time = none)
        ∧ (∀ te, result.findTag "time" = some te →
            (te.getAttr "datetime" = none → (extract_post fromIso result).time = none)
            ∧ ∀ ts, te.getAttr "datetime" = some ts →
              (extract_post fromIso result).time = fromIso ts) := by
  constructor
  · rfl
  · intro result
    refine ⟨?_, ?_, ?_, ?_, ?_, ?_, ?_⟩
    · intro h
      have h0 : raw_link result = "" := by simp [raw_link, h]
      constructor
      · simp [extract_post, h]
      · simp [extract_post, h0, pyStartsWith, List.isPrefixOf]
    · intro h; simp [extract_post, h]
    · intro h
      simp [extract_post, h, pySplitLast, splitOnChar]
      rfl
    · intro h; simp [extract_post, h]
    · intro h; simp [extract_post, h]
    · intro h; simp [extract_post, h]
    · intro te hte
      constructor
      · intro h; simp [extract_post, hte, h]
      · intro ts hts; simp [extract_post, hte, hts]

/-- C6 witness: the bare result node degrades in every field, and the empty
document extracts to the empty list. -/
theorem extraction_total_with_fallbacks_witness :
    (extract_post fromIso0 bareResult).title = "No title found"
    ∧ (extract_post fromIso0 bareResult).link = ""
    ∧ (extract_post fromIso0 bareResult).author = "Unknown"
    ∧ (extract_post fromIso0 bareResult).id = ""
    ∧ (extract_post fromIso0 bareResult).time = none
    ∧ parse_reddit_search_results fromIso0 docEmpty = [] :=
  ⟨(((extraction_total_with_fallbacks fromIso0 docEmpty).2 bareResult).1 (by rfl)).1,
   (((extraction_total_with_fallbacks fromIso0 docEmpty).2 bareResult).1 (by rfl)).2,
   ((extraction_total_with_fallbacks fromIso0 docEmpty).2 bareResult).2.1 (by rfl),
   ((extraction_total_with_fallbacks fromIso0 docEmpty).2 bareResult).2.2.1 (by rfl),
   ((extraction_total_with_fallbacks fromIso0 docEmpty).2 bareResult).2.2.2.2.2.1 (by rfl),
   ((extraction_total_with_fallbacks fromIso0 docEmpty).1).trans (by rfl)⟩

/-- C7: when the fetch collaborator reports failure the cycle is a no-op:
the input set is returned unmodified, stats are total 0 / new 0, and no
exception is raised. -/
theorem fetch_failure_yields_noop_cycle (ctx : Ctx) (subreddit search_query : String)
    (s : Finset String) :
    send_reddit_notifications ctx subreddit search_query none s = ⟨0, s, 0, [], none⟩ := rfl

/-- C8: persisting the notified-id set and loading it back yields an equal
set, whatever order the serialized list put the ids in. -/
theorem notified_ids_round_trip (S : Finset String) :
    load_notified_ids (some (save_notified_ids S)) = S := by
  simp [load_notified_ids, save_notified_ids, Finset.sort_toFinset]

/-- C9 counterexample: with `PUSHBULLET_API_KEY` absent the process does not
abort at startup: a pass whose posts are all already notified completes
normally and even persists the set; a pass that does hit a new post has its
`ValueError` caught by the pass-level handler and the loop continues with an
unchanged state — the error surfaces mid-operation and is recovered, never
at startup. -/
theorem missing_key_process_continues :
    run_pass_queries ctxNoKey fetchB [qB] {"bbb"} = ⟨{"bbb"}, 1, none⟩
    ∧ main_loop_iter ctxNoKey fetchB [qB] ⟨{"bbb"}, none⟩ = ⟨{"bbb"}, some ["bbb"]⟩
    ∧ main_loop_iter ctxNoKey fetchB [qB] ⟨∅, none⟩ = ⟨∅, none⟩ := by
  refine ⟨by decide, ?_, by decide⟩
  have h1 : run_pass_queries ctxNoKey fetchB [qB] {"bbb"} = ⟨{"bbb"}, 1, none⟩ := by decide
  simp [main_loop_iter, h1, save_notified_ids]

/-- C9 amended: the credential is only consulted when a notification is
attempted: with the key absent, the cycle raises `ValueError` at the first
new post (set unchanged, nothing sent); the pass-level handler catches it,
so the process keeps polling instead of aborting. -/
theorem missing_key_errors_on_first_notification (ctx : Ctx) (subreddit : String)
    (p : Post) (rest : List Post) (s : Finset String) (t : DateTime)
    (hk : ctx.apiKey = none) (hp : p.id ∉ s) (ht : p.time = some t) :
    notify_posts ctx subreddit (p :: rest) s
      = ⟨s, 0, [], some (.valueError "PUSHBULLET_API_KEY environment variable is not set")⟩ := by
  rw [notify_posts_cons, if_neg hp, ht, hk]

/-- C9 amended, witness: a fresh post with a valid timestamp, key absent. -/
theorem missing_key_errors_on_first_notification_witness :
    ctxNoKey.apiKey = none
    ∧ (Post.mk "zzz" "T" "a" "l" (some 5)).id ∉ (∅ : Finset String)
    ∧ (Post.mk "zzz" "T" "a" "l" (some 5)).time = some 5
    ∧ notify_posts ctxNoKey "test" [Post.mk "zzz" "T" "a" "l" (some 5)] ∅
      = ⟨∅, 0, [], some (.valueError "PUSHBULLET_API_KEY environment variable is not set")⟩ :=
  ⟨rfl, by decide, rfl,
   missing_key_errors_on_first_notification ctxNoKey "test"
     (Post.mk "zzz" "T" "a" "l" (some 5)) [] ∅ 5 rfl (by decide) rfl⟩

/-- C10: the notified set grows monotonically: the input set survives every
cycle, and the set afterwards is the input set plus exactly the ids of the
posts processed as new (those a notification was attempted for). -/
theorem notified_set_monotone_union (ctx : Ctx) (subreddit search_query : String)
    (fetched : Option Element) (s : Finset String) :
    s ⊆ (send_reddit_notifications ctx subreddit search_query fetched s).notified
    ∧ (send_reddit_notifications ctx subreddit search_query fetched s).notified
      = s ∪ ((send_reddit_notifications ctx subreddit search_query fetched
          s).sent.map SentNote.id).toFinset :=
  ⟨notify_posts_subset ctx subreddit (fetch_and_parse_reddit_search ctx.fromIso fetched) s,
   notify_posts_notified_eq ctx subreddit (fetch_and_parse_reddit_search ctx.fromIso fetched) s⟩

end RedditPostNotifier
